import Mathlib

/-!
Verification of the feature-resolution and vector-assembly pipeline of the
PdM RUL prediction service (app.py).

The embedding models the JSON scalar values a request payload can carry as a
tagged union.  Python coerces values with the builtin float(); for strings
this parsing is a language primitive, so a string value in the embedding
carries the outcome of float() on it as data: numStr is a string on which
float() succeeds (with the parsed value), badStr is a string on which
float() raises.  Numbers are modelled as rationals; the claims under study
are about resolution structure, not about rounding.
-/

instance {ε α : Type} [DecidableEq ε] [DecidableEq α] :
    DecidableEq (Except ε α) := fun x y =>
  match x, y with
  | .error a, .error b =>
    if h : a = b then isTrue (by rw [h]) else isFalse (by simp [h])
  | .ok a, .ok b =>
    if h : a = b then isTrue (by rw [h]) else isFalse (by simp [h])
  | .error _, .ok _ => isFalse (fun h => Except.noConfusion h)
  | .ok _, .error _ => isFalse (fun h => Except.noConfusion h)

/-- A scalar value as it arrives in the JSON payload (Python side). -/
inductive PyVal where
  /-- a JSON number (Python int or float) -/
  | num (x : ℚ)
  /-- a JSON boolean; Python float(True) is 1.0, float(False) is 0.0 -/
  | bool (b : Bool)
  /-- a string on which the Python builtin float() succeeds, parsing to x -/
  | numStr (s : String) (x : ℚ)
  /-- a string on which the Python builtin float() raises ValueError -/
  | badStr (s : String)
  /-- JSON null (Python None) -/
  | null
  /-- any other value (object, array, ...) on which float() raises -/
  | obj (descr : String)
deriving DecidableEq

/-- The Python builtin float() as used at app.py line 188: some x when the
coercion succeeds with value x, none when it raises. -/
def pyFloat : PyVal → Option ℚ
  | .num x => some x
  | .bool b => some (if b then 1 else 0)
  | .numStr _ x => some x
  | .badStr _ => none
  | .null => none
  | .obj _ => none

/-- A request payload: the dict under the data key.  A Python dict has
unique keys, so it is a partial map from keys to values; none means the key
is absent. -/
abbrev Payload := String → Option PyVal

/-- Build a payload from explicit key/value pairs (first binding wins, as a
dict literal with distinct keys). -/
def Payload.ofList (l : List (String × PyVal)) : Payload :=
  fun k => (l.find? (fun kv => kv.1 = k)).map Prod.snd

/-- The static human-readable alias table, app.py lines 85-110:
readable name to canonical internal feature identifier. -/
def readable_to_internal : List (String × String) :=
  [ ("Altitude_factor", "op_setting1"),
    ("Throttle_resolver_angle", "op_setting2"),
    ("Mach_temperature_index", "op_setting3"),
    ("Fan_inlet_temperature_T2", "s1"),
    ("LPC_outlet_temperature_T24", "s2"),
    ("HPC_outlet_temperature_T30", "s3"),
    ("LPT_outlet_temperature_T50", "s4"),
    ("Fan_inlet_pressure_P2", "s5"),
    ("LPC_outlet_pressure_P15", "s6"),
    ("HPC_outlet_pressure_P30", "s7"),
    ("Physical_fan_speed_Nf", "s8"),
    ("Physical_core_speed_Nc", "s9"),
    ("Engine_pressure_ratio_EPR", "s10"),
    ("Bypass_duct_exit_pressure_Ps30", "s11"),
    ("Fuel_flow_ratio_to_Ps30", "s12"),
    ("Corrected_fan_speed_Wf", "s13"),
    ("Corrected_core_speed", "s14"),
    ("Bypass_ratio_BPR", "s15"),
    ("Burner_fuel_air_ratio_FARB", "s16"),
    ("Bleed_enthalpy", "s17"),
    ("Demanded_fan_speed", "s18"),
    ("Demanded_corrected_fan_speed", "s19"),
    ("HPT_coolant_bleed", "s20"),
    ("LPT_coolant_bleed", "s21") ]

/-- The derived inverse map, app.py lines 113-115: internal identifier to
the list of its readable aliases, in table insertion order (the Python loop
appends each readable name to the list for its internal name). -/
def internal_to_readables (i : String) : List String :=
  (readable_to_internal.filter (fun kv => kv.2 = i)).map Prod.fst

/-- The value-selection chain of app.py lines 173-183 for one feature:
if the canonical identifier is a key of the payload use its value; else scan
the aliases in registry order and use the value of the first alias that is a
key; else nothing matched.  Note a matched value may itself be JSON null. -/
def chooseRaw (i2r : String → List String) (p : Payload) (feat : String) :
    Option PyVal :=
  if (p feat).isSome then p feat
  else
    match (i2r feat).find? (fun a => (p a).isSome) with
    | some a => p a
    | none => none

/-- Resolution-stage error, app.py lines 189-190. -/
inductive ResolveError where
  | nonNumeric (feat : String) (v : PyVal)
deriving DecidableEq

/-- The resolution loop of app.py lines 170-190.  For each feature, run the
value-selection chain.  The Python code then tests the chosen value with
val is None: this is true both when no key matched and when the matched
value was JSON null; in both cases the feature is recorded as missing and
the slot filled with 0.0.  Otherwise float(val) is applied; on failure the
whole resolution aborts with the nonNumeric error for that feature; on
success the coerced value is appended to the row. -/
def resolve (i2r : String → List String) (p : Payload) :
    List String → Except ResolveError (List ℚ × List String)
  | [] => .ok ([], [])
  | feat :: rest =>
    match chooseRaw i2r p feat with
    | none =>
      (resolve i2r p rest).map (fun rm => (0 :: rm.1, feat :: rm.2))
    | some .null =>
      (resolve i2r p rest).map (fun rm => (0 :: rm.1, feat :: rm.2))
    | some v =>
      match pyFloat v with
      | some x => (resolve i2r p rest).map (fun rm => (x :: rm.1, rm.2))
      | none => .error (.nonNumeric feat v)

/-- Whether the selection outcome takes the missing branch (val is None in
the Python code): no key matched, or the matched value was JSON null. -/
def missingChoice : Option PyVal → Bool
  | none => true
  | some .null => true
  | some _ => false

/-- Whether the selection outcome aborts resolution: a value was matched,
it is not null, and float() raises on it. -/
def badChoice : Option PyVal → Bool
  | none => false
  | some .null => false
  | some v => (pyFloat v).isNone

/-- The value the algorithm puts in the slot of a feature when resolution
does not abort there: 0 on the missing branch, the float() coercion of the
chosen value otherwise. -/
def slotVal (i2r : String → List String) (p : Payload) (feat : String) : ℚ :=
  match chooseRaw i2r p feat with
  | none => 0
  | some .null => 0
  | some v => (pyFloat v).getD 0

/-- Process-wide service state after startup: whether the model artifact
loaded, whether the scaler loaded, and the loaded feature schema. -/
structure ServiceState where
  modelLoaded : Bool
  scalerLoaded : Bool
  internal_features : List String
deriving DecidableEq

/-- The readiness check of the /health endpoint, app.py line 137: the
service is Ready when the model and scaler are loaded and the schema is
nonempty. -/
def health_ok (st : ServiceState) : Bool :=
  st.modelLoaded && st.scalerLoaded && decide (st.internal_features.length > 0)

/-- Errors of the /predict endpoint, app.py lines 160-203, tagged by the
HTTPException they raise. -/
inductive PredictError where
  /-- 500: model or scaler not loaded, or empty schema (line 162-164) -/
  | notReady
  /-- 400: a feature value failed float() coercion (line 190) -/
  | nonNumeric (feat : String) (v : PyVal)
  /-- 500: scaler.transform raised (line 196) -/
  | scalerFailed
  /-- 500: model.predict raised (line 201) -/
  | predictFailed
deriving DecidableEq

/-- The /predict handler, app.py lines 160-203.  The external collaborators
(the fitted scaler and model) are parameters: each is a function returning
none when the underlying library call raises.  The readiness guard at lines
162-164 rejects before any resolution when the model or scaler is not
loaded or the schema is empty. -/
def predict (st : ServiceState)
    (scalerTransform : List ℚ → Option (List ℚ))
    (modelPredict : List ℚ → Option ℚ)
    (p : Payload) : Except PredictError (ℚ × List String) :=
  if st.modelLoaded = false ∨ st.scalerLoaded = false ∨
      st.internal_features = [] then
    .error .notReady
  else
    match resolve internal_to_readables p st.internal_features with
    | .error (.nonNumeric f v) => .error (.nonNumeric f v)
    | .ok (row, missing) =>
      match scalerTransform row with
      | none => .error .scalerFailed
      | some xs =>
        match modelPredict xs with
        | none => .error .predictFailed
        | some pred => .ok (pred, missing)

/-- The candidate artifact locations of app.py lines 20-27. -/
def artifactCandidates : List (String × String × String) :=
  [ ("xgboost_model.pkl", "scaler.pkl", "features.txt"),
    ("models/xgboost_model.pkl", "models/scaler.pkl", "models/features.txt") ]

/-- find_artifact_paths, app.py lines 14-37: return the first candidate
triple whose three paths all exist; none models the FileNotFoundError
raised when no candidate is complete. -/
def find_artifact_paths (pathExists : String → Bool) :
    Option (String × String × String) :=
  artifactCandidates.find?
    (fun c => pathExists c.1 && pathExists c.2.1 && pathExists c.2.2)

/-- The environment startup runs in: which paths exist on disk, whether the
joblib loads and the features-file read succeed, and the lines of
features.txt. -/
structure LoadEnv where
  pathExists : String → Bool
  loadOk : Bool
  featureLines : List String

/-- A distinguishable startup-fatal condition (what an uncaught exception
during module load would be). -/
inductive StartupError where
  | schemaUnavailable
deriving DecidableEq

/-- The module-level startup of app.py lines 55-80, as the service state it
leaves behind.  A missing artifact set leaves everything unloaded (the
except branch sets the paths to None, line 62); a load failure resets
model, scaler and features (lines 75-80); a successful load strips the
lines of features.txt and drops the blank ones (line 73). -/
def startupState (env : LoadEnv) : ServiceState :=
  match find_artifact_paths env.pathExists with
  | none => ⟨false, false, []⟩
  | some _ =>
    if env.loadOk then
      ⟨true, true, (env.featureLines.map String.trim).filter (fun s => s ≠ "")⟩
    else ⟨false, false, []⟩

/-- Startup as a fallible computation.  Every exception the load path can
raise is caught at app.py lines 58-62 and 75-80 (the comment at line 61
says the app is still created and /predict will return 500 until fixed), so
the translation never returns an error: the process always comes up, in the
state startupState describes. -/
def startup (env : LoadEnv) : Except StartupError ServiceState :=
  .ok (startupState env)

/-! ### Structural lemmas about the resolver -/

theorem chooseRaw_canonical (i2r : String → List String) (p : Payload)
    (feat : String) (h : (p feat).isSome) : chooseRaw i2r p feat = p feat := by
  simp [chooseRaw, h]

theorem chooseRaw_absent (i2r : String → List String) (p : Payload)
    (feat : String) (h : p feat = none)
    (ha : ∀ a ∈ i2r feat, p a = none) : chooseRaw i2r p feat = none := by
  have hfind : (i2r feat).find? (fun a => (p a).isSome) = none :=
    List.find?_eq_none.mpr (fun a hmem => by simp [ha a hmem])
  simp [chooseRaw, h, hfind]

theorem missingChoice_spec {o : Option PyVal} (h : missingChoice o = true) :
    o = none ∨ o = some PyVal.null := by
  cases o with
  | none => exact Or.inl rfl
  | some v => cases v <;> simp_all [missingChoice]

theorem missingChoice_some (v : PyVal) (h : v ≠ PyVal.null) :
    missingChoice (some v) = false := by
  cases v with
  | null => exact absurd rfl h
  | num x => rfl
  | bool b => rfl
  | numStr s x => rfl
  | badStr s => rfl
  | obj d => rfl

theorem badChoice_spec {o : Option PyVal} (h : badChoice o = true) :
    ∃ v, o = some v ∧ v ≠ PyVal.null ∧ pyFloat v = none := by
  cases o with
  | none => simp [badChoice] at h
  | some v =>
    cases v with
    | num x => simp [badChoice, pyFloat] at h
    | bool b => simp [badChoice, pyFloat] at h
    | numStr s x => simp [badChoice, pyFloat] at h
    | null => simp [badChoice] at h
    | badStr s => exact ⟨.badStr s, rfl, fun hc => PyVal.noConfusion hc, rfl⟩
    | obj d => exact ⟨.obj d, rfl, fun hc => PyVal.noConfusion hc, rfl⟩

theorem badChoice_of_val {v : PyVal} (hnull : v ≠ PyVal.null)
    (hx : pyFloat v = none) : badChoice (some v) = true := by
  cases v with
  | null => exact absurd rfl hnull
  | num x => simp [pyFloat] at hx
  | bool b => simp [pyFloat] at hx
  | numStr s x => simp [pyFloat] at hx
  | badStr s => rfl
  | obj d => rfl

theorem goodChoice_cases {o : Option PyVal} (h : badChoice o = false) :
    missingChoice o = true ∨ ∃ v x, o = some v ∧ pyFloat v = some x := by
  cases o with
  | none => exact Or.inl rfl
  | some v =>
    cases v with
    | null => exact Or.inl rfl
    | num x => exact Or.inr ⟨.num x, x, rfl, rfl⟩
    | bool b => exact Or.inr ⟨.bool b, if b then 1 else 0, rfl, rfl⟩
    | numStr s x => exact Or.inr ⟨.numStr s x, x, rfl, rfl⟩
    | badStr s => simp [badChoice, pyFloat] at h
    | obj d => simp [badChoice, pyFloat] at h

theorem resolve_cons_of_none (i2r : String → List String) (p : Payload)
    (feat : String) (rest : List String)
    (h : chooseRaw i2r p feat = none) :
    resolve i2r p (feat :: rest) =
      (resolve i2r p rest).map (fun rm => (0 :: rm.1, feat :: rm.2)) := by
  simp [resolve, h]

theorem resolve_cons_of_null (i2r : String → List String) (p : Payload)
    (feat : String) (rest : List String)
    (h : chooseRaw i2r p feat = some PyVal.null) :
    resolve i2r p (feat :: rest) =
      (resolve i2r p rest).map (fun rm => (0 :: rm.1, feat :: rm.2)) := by
  simp [resolve, h]

theorem resolve_cons_of_val (i2r : String → List String) (p : Payload)
    (feat : String) (rest : List String) {v : PyVal} {x : ℚ}
    (h : chooseRaw i2r p feat = some v) (hx : pyFloat v = some x) :
    resolve i2r p (feat :: rest) =
      (resolve i2r p rest).map (fun rm => (x :: rm.1, rm.2)) := by
  cases v <;> simp [pyFloat] at hx <;> simp [resolve, h, pyFloat, hx]

theorem resolve_cons_of_bad (i2r : String → List String) (p : Payload)
    (feat : String) (rest : List String) {v : PyVal}
    (h : chooseRaw i2r p feat = some v) (hnull : v ≠ PyVal.null)
    (hx : pyFloat v = none) :
    resolve i2r p (feat :: rest) = .error (.nonNumeric feat v) := by
  cases v with
  | null => exact absurd rfl hnull
  | num x => simp [pyFloat] at hx
  | bool b => simp [pyFloat] at hx
  | numStr s x => simp [pyFloat] at hx
  | badStr s => simp [resolve, h, pyFloat]
  | obj d => simp [resolve, h, pyFloat]

theorem slotVal_of_missing (i2r : String → List String) (p : Payload)
    (feat : String) (h : missingChoice (chooseRaw i2r p feat) = true) :
    slotVal i2r p feat = 0 := by
  rcases missingChoice_spec h with h | h <;> simp [slotVal, h]

theorem slotVal_of_val (i2r : String → List String) (p : Payload)
    (feat : String) {v : PyVal} {x : ℚ}
    (h : chooseRaw i2r p feat = some v) (hx : pyFloat v = some x) :
    slotVal i2r p feat = x := by
  cases v <;> simp [pyFloat] at hx <;> simp [slotVal, h, pyFloat, hx]

theorem resolve_ok_of_allGood (i2r : String → List String) (p : Payload)
    (feats : List String)
    (h : ∀ f ∈ feats, badChoice (chooseRaw i2r p f) = false) :
    resolve i2r p feats =
      .ok (feats.map (slotVal i2r p),
        feats.filter (fun f => missingChoice (chooseRaw i2r p f))) := by
  induction feats with
  | nil => rfl
  | cons feat rest ih =>
    have hfeat := h feat (List.mem_cons_self feat rest)
    have hrest := fun f hf => h f (List.mem_cons_of_mem feat hf)
    rcases goodChoice_cases hfeat with hm | ⟨v, x, hcr, hx⟩
    · rcases missingChoice_spec hm with hn | hn
      · rw [resolve_cons_of_none i2r p feat rest hn, ih hrest]
        simp [List.filter_cons, hm, slotVal_of_missing i2r p feat hm,
          Except.map]
      · rw [resolve_cons_of_null i2r p feat rest hn, ih hrest]
        simp [List.filter_cons, hm, slotVal_of_missing i2r p feat hm,
          Except.map]
    · have hne : v ≠ PyVal.null := by
        rintro rfl
        simp [pyFloat] at hx
      have hmf : missingChoice (chooseRaw i2r p feat) = false := by
        rw [hcr]
        exact missingChoice_some v hne
      rw [resolve_cons_of_val i2r p feat rest hcr hx, ih hrest]
      simp [List.filter_cons, hmf, slotVal_of_val i2r p feat hcr hx,
        Except.map]

theorem resolve_err_of_bad (i2r : String → List String) (p : Payload)
    (feats : List String) (f : String)
    (hf : f ∈ feats) (hbad : badChoice (chooseRaw i2r p f) = true) :
    ∃ g w, resolve i2r p feats = .error (.nonNumeric g w) ∧ g ∈ feats ∧
      chooseRaw i2r p g = some w ∧ w ≠ PyVal.null ∧ pyFloat w = none := by
  induction feats with
  | nil => cases hf
  | cons feat rest ih =>
    by_cases hb : badChoice (chooseRaw i2r p feat) = true
    · obtain ⟨v, hcr, hnull, hnone⟩ := badChoice_spec hb
      exact ⟨feat, v, resolve_cons_of_bad i2r p feat rest hcr hnull hnone,
        List.mem_cons_self feat rest, hcr, hnull, hnone⟩
    · have hbf : badChoice (chooseRaw i2r p feat) = false := by
        cases hcb : badChoice (chooseRaw i2r p feat)
        · rfl
        · exact absurd hcb hb
      have hfr : f ∈ rest := by
        rcases List.mem_cons.mp hf with rfl | hr
        · exact absurd hbad hb
        · exact hr
      obtain ⟨g, w, hres, hg, hcrg, hnullg, hnoneg⟩ := ih hfr
      refine ⟨g, w, ?_, List.mem_cons_of_mem feat hg, hcrg, hnullg, hnoneg⟩
      rcases goodChoice_cases hbf with hm | ⟨v, x, hcr, hx⟩
      · rcases missingChoice_spec hm with hn | hn
        · rw [resolve_cons_of_none i2r p feat rest hn, hres]
          rfl
        · rw [resolve_cons_of_null i2r p feat rest hn, hres]
          rfl
      · rw [resolve_cons_of_val i2r p feat rest hcr hx, hres]
        rfl

theorem resolve_ok_inv (i2r : String → List String) (p : Payload)
    (feats : List String) (row : List ℚ) (miss : List String)
    (h : resolve i2r p feats = .ok (row, miss)) :
    (∀ f ∈ feats, badChoice (chooseRaw i2r p f) = false) ∧
      row = feats.map (slotVal i2r p) ∧
      miss = feats.filter (fun f => missingChoice (chooseRaw i2r p f)) := by
  have hgood : ∀ f ∈ feats, badChoice (chooseRaw i2r p f) = false := by
    intro f hf
    cases hcb : badChoice (chooseRaw i2r p f) with
    | false => rfl
    | true =>
      obtain ⟨g, w, herr, -, -, -, -⟩ := resolve_err_of_bad i2r p feats f hf hcb
      rw [herr] at h
      exact Except.noConfusion h
  rw [resolve_ok_of_allGood i2r p feats hgood] at h
  simp only [Except.ok.injEq, Prod.mk.injEq] at h
  exact ⟨hgood, h.1.symm, h.2.symm⟩

theorem find?_congr {α : Type} (f g : α → Bool) (l : List α)
    (h : ∀ a ∈ l, f a = g a) : l.find? f = l.find? g := by
  induction l with
  | nil => rfl
  | cons a t ih =>
    have hfa := h a (List.mem_cons_self a t)
    have ht := ih (fun b hb => h b (List.mem_cons_of_mem a hb))
    simp only [List.find?, hfa, ht]

theorem chooseRaw_congr (i2r : String → List String) (p q : Payload)
    (feat : String) (hfeat : p feat = q feat)
    (ha : ∀ a ∈ i2r feat, p a = q a) :
    chooseRaw i2r p feat = chooseRaw i2r q feat := by
  unfold chooseRaw
  rw [hfeat,
    find?_congr (fun a => (p a).isSome) (fun a => (q a).isSome) (i2r feat)
      (fun a hmem => by simp only [ha a hmem])]
  cases hf : (i2r feat).find? (fun a => (q a).isSome) with
  | none => rfl
  | some a => simp only [ha a (List.mem_of_find?_eq_some hf)]

theorem resolve_congr (i2r : String → List String) (p q : Payload)
    (feats : List String)
    (h : ∀ f ∈ feats, chooseRaw i2r p f = chooseRaw i2r q f) :
    resolve i2r p feats = resolve i2r q feats := by
  induction feats with
  | nil => rfl
  | cons feat rest ih =>
    have hf := h feat (List.mem_cons_self feat rest)
    have hr := ih (fun f hm => h f (List.mem_cons_of_mem feat hm))
    simp only [resolve, hf, hr]

theorem predict_of_unready (st : ServiceState)
    (h : st.modelLoaded = false ∨ st.scalerLoaded = false ∨
      st.internal_features = [])
    (scalerTransform : List ℚ → Option (List ℚ))
    (modelPredict : List ℚ → Option ℚ) (p : Payload) :
    predict st scalerTransform modelPredict p = .error .notReady := by
  unfold predict
  rw [if_pos h]

theorem predict_of_resolve_err (st : ServiceState)
    (hm : st.modelLoaded = true) (hs : st.scalerLoaded = true)
    (hne : st.internal_features ≠ []) (p : Payload) (f : String) (v : PyVal)
    (h : resolve internal_to_readables p st.internal_features =
      .error (.nonNumeric f v))
    (scalerTransform : List ℚ → Option (List ℚ))
    (modelPredict : List ℚ → Option ℚ) :
    predict st scalerTransform modelPredict p = .error (.nonNumeric f v) := by
  unfold predict
  rw [if_neg, h]
  rintro (hc | hc | hc)
  · rw [hm] at hc
    exact Bool.noConfusion hc
  · rw [hs] at hc
    exact Bool.noConfusion hc
  · exact hne hc

/-! ### Claim C1 -/

/-- Claim C1, counterexample: the claim says a present null value for a
targeted feature aborts resolution with NonNumericFeature.  On the code, a
payload binding the canonical key op_setting1 to null resolves
successfully: the val is None test at app.py line 184 also fires for a
matched null, so the slot is filled with 0.0, the feature is reported as
missing, and prediction proceeds. -/
theorem C1_counterexample :
    resolve internal_to_readables
      (Payload.ofList [("op_setting1", PyVal.null)]) ["op_setting1"] =
      .ok ([0], ["op_setting1"]) ∧
    predict ⟨true, true, ["op_setting1"]⟩ (fun r => some r) (fun _ => some 7)
      (Payload.ofList [("op_setting1", PyVal.null)]) =
      .ok (7, ["op_setting1"]) := by
  exact ⟨by decide, by decide⟩

/-- Claim C1 (amended): for every payload in which some schema feature is
matched (canonically or via an alias) to a value that is present, not
null, and not numeric, the whole resolution aborts with a NonNumericFeature
error naming an offending feature and its rejected value, no vector is
produced, and /predict fails with that client error for any model and
scaler (no prediction is attempted); a matched null value is instead
treated as missing. -/
theorem C1_nonNumeric_aborts (p : Payload) (feats : List String)
    (f : String) (v : PyVal) (hf : f ∈ feats)
    (hv : chooseRaw internal_to_readables p f = some v)
    (hnull : v ≠ PyVal.null) (hnum : pyFloat v = none) :
    ∃ g w,
      resolve internal_to_readables p feats = .error (.nonNumeric g w) ∧
      g ∈ feats ∧ chooseRaw internal_to_readables p g = some w ∧
      w ≠ PyVal.null ∧ pyFloat w = none ∧
      ∀ (scalerTransform : List ℚ → Option (List ℚ))
        (modelPredict : List ℚ → Option ℚ),
        predict ⟨true, true, feats⟩ scalerTransform modelPredict p =
          .error (.nonNumeric g w) := by
  obtain ⟨g, w, herr, hg, hcrg, hnullg, hnoneg⟩ :=
    resolve_err_of_bad internal_to_readables p feats f hf
      (by rw [hv]; exact badChoice_of_val hnull hnum)
  refine ⟨g, w, herr, hg, hcrg, hnullg, hnoneg, fun sT mP => ?_⟩
  exact predict_of_resolve_err ⟨true, true, feats⟩ rfl rfl
    (List.ne_nil_of_mem hf) p g w herr sT mP

/-- Claim C1, witness: a non-numeric string bound to op_setting1 makes the
whole resolution abort, via the amended theorem at a concrete payload. -/
theorem C1_nonNumeric_aborts_witness :
    ∃ g w,
      resolve internal_to_readables
        (Payload.ofList [("op_setting1", PyVal.badStr "oops")])
        ["op_setting1"] = .error (.nonNumeric g w) ∧
      g ∈ ["op_setting1"] ∧
      chooseRaw internal_to_readables
        (Payload.ofList [("op_setting1", PyVal.badStr "oops")]) g = some w ∧
      w ≠ PyVal.null ∧ pyFloat w = none ∧
      ∀ (scalerTransform : List ℚ → Option (List ℚ))
        (modelPredict : List ℚ → Option ℚ),
        predict ⟨true, true, ["op_setting1"]⟩ scalerTransform modelPredict
          (Payload.ofList [("op_setting1", PyVal.badStr "oops")]) =
          .error (.nonNumeric g w) :=
  C1_nonNumeric_aborts
    (Payload.ofList [("op_setting1", PyVal.badStr "oops")])
    ["op_setting1"] "op_setting1" (PyVal.badStr "oops")
    (by decide) (by decide) (by decide) (by decide)

/-! ### Claim C2 -/

/-- Claim C2: if a payload supplies both the canonical identifier and an
alias of the same feature with different values, the canonical entry is the
one selected, and on successful resolution the slot holds the coercion of
the canonical value. -/
theorem C2_canonical_precedence (i2r : String → List String) (p : Payload)
    (feats : List String) (i : ℕ) (f a : String) (v w : PyVal) (x : ℚ)
    (row : List ℚ) (miss : List String)
    (hf : feats.get? i = some f)
    (hcanon : p f = some v)
    (halias : a ∈ i2r f) (hw : p a = some w) (hdiff : v ≠ w)
    (hx : pyFloat v = some x)
    (hok : resolve i2r p feats = .ok (row, miss)) :
    chooseRaw i2r p f = some v ∧ row.get? i = some x := by
  have hcr : chooseRaw i2r p f = some v := by
    rw [chooseRaw_canonical i2r p f (by simp [hcanon]), hcanon]
  obtain ⟨-, hrow, -⟩ := resolve_ok_inv i2r p feats row miss hok
  refine ⟨hcr, ?_⟩
  rw [hrow, List.get?_map, hf]
  simp [slotVal_of_val i2r p f hcr hx]

/-- Claim C2, witness: op_setting1 supplied both canonically (2) and via
the registered alias Altitude_factor (5); the resolved slot holds 2. -/
theorem C2_canonical_precedence_witness :
    chooseRaw internal_to_readables
      (Payload.ofList
        [("op_setting1", PyVal.num 2), ("Altitude_factor", PyVal.num 5)])
      "op_setting1" = some (PyVal.num 2) ∧
    ([2] : List ℚ).get? 0 = some 2 :=
  C2_canonical_precedence internal_to_readables
    (Payload.ofList
      [("op_setting1", PyVal.num 2), ("Altitude_factor", PyVal.num 5)])
    ["op_setting1"] 0 "op_setting1" "Altitude_factor"
    (PyVal.num 2) (PyVal.num 5) 2 [2] []
    (by decide) (by decide) (by decide) (by decide) (by decide) (by decide)
    (by decide)

/-! ### Claim C3 -/

/-- Claim C3: a schema feature supplied neither by its canonical identifier
nor by any of its aliases resolves to exactly 0 at its slot and is listed
in the Resolution Report. -/
theorem C3_missing_defaults_zero (i2r : String → List String) (p : Payload)
    (feats : List String) (i : ℕ) (f : String)
    (row : List ℚ) (miss : List String)
    (hf : feats.get? i = some f)
    (hcanon : p f = none)
    (halias : ∀ a ∈ i2r f, p a = none)
    (hok : resolve i2r p feats = .ok (row, miss)) :
    row.get? i = some 0 ∧ f ∈ miss := by
  have hcr := chooseRaw_absent i2r p f hcanon halias
  obtain ⟨-, hrow, hmiss⟩ := resolve_ok_inv i2r p feats row miss hok
  constructor
  · rw [hrow, List.get?_map, hf]
    simp [slotVal_of_missing i2r p f (by rw [hcr]; rfl)]
  · rw [hmiss]
    exact List.mem_filter.mpr ⟨List.get?_mem hf, by rw [hcr]; rfl⟩

/-- Claim C3, witness: with schema op_setting1, s1 and a payload giving
only op_setting1, the slot of s1 is 0 and s1 is reported missing. -/
theorem C3_missing_defaults_zero_witness :
    (([1, 0] : List ℚ).get? 1 = some 0) ∧ "s1" ∈ ["s1"] :=
  C3_missing_defaults_zero internal_to_readables
    (Payload.ofList [("op_setting1", PyVal.num 1)])
    ["op_setting1", "s1"] 1 "s1" [1, 0] ["s1"]
    (by decide) (by decide) (by decide) (by decide)

/-! ### Claim C4 -/

/-- Claim C4: on success the Resolved Vector has exactly one entry per
schema feature, the entry at position i is the value the algorithm derives
from the i-th canonical identifier, and every reported identifier is an
element of the schema. -/
theorem C4_output_shape (i2r : String → List String) (p : Payload)
    (feats : List String) (row : List ℚ) (miss : List String)
    (hok : resolve i2r p feats = .ok (row, miss)) :
    row.length = feats.length ∧ (∀ f ∈ miss, f ∈ feats) ∧
      ∀ i f, feats.get? i = some f → row.get? i = some (slotVal i2r p f) := by
  obtain ⟨-, hrow, hmiss⟩ := resolve_ok_inv i2r p feats row miss hok
  refine ⟨by rw [hrow]; exact List.length_map feats (slotVal i2r p), ?_, ?_⟩
  · intro f hf
    rw [hmiss] at hf
    exact (List.mem_filter.mp hf).1
  · intro i f hf
    rw [hrow, List.get?_map, hf]
    rfl

/-- Claim C4, witness: a concrete successful resolution has a vector of the
schema length and a report inside the schema. -/
theorem C4_output_shape_witness :
    (([4, 0] : List ℚ).length = (["op_setting1", "s1"] : List String).length)
      ∧ "s1" ∈ (["op_setting1", "s1"] : List String) := by
  obtain ⟨h1, h2, -⟩ := C4_output_shape internal_to_readables
    (Payload.ofList [("op_setting1", PyVal.num 4)])
    ["op_setting1", "s1"] [4, 0] ["s1"] (by decide)
  exact ⟨h1, h2 "s1" (by decide)⟩

/-! ### Claim C5 -/

/-- Claim C5: a payload supplying every schema feature canonically with a
numeric value resolves successfully with an empty Resolution Report, and
the Resolved Vector is the supplied values in schema order. -/
theorem C5_all_canonical (i2r : String → List String) (p : Payload)
    (feats : List String) (v : String → ℚ)
    (h : ∀ f ∈ feats, p f = some (.num (v f))) :
    resolve i2r p feats = .ok (feats.map v, []) := by
  have hcr : ∀ f ∈ feats, chooseRaw i2r p f = some (.num (v f)) := by
    intro f hf
    rw [chooseRaw_canonical i2r p f (by simp [h f hf]), h f hf]
  have hgood : ∀ f ∈ feats, badChoice (chooseRaw i2r p f) = false := by
    intro f hf
    rw [hcr f hf]
    rfl
  rw [resolve_ok_of_allGood i2r p feats hgood]
  have hmap : feats.map (slotVal i2r p) = feats.map v :=
    List.map_congr_left (fun f hf => slotVal_of_val i2r p f (hcr f hf) rfl)
  have hfil :
      feats.filter (fun f => missingChoice (chooseRaw i2r p f)) = [] :=
    List.filter_eq_nil_iff.mpr (fun f hf => by
      rw [hcr f hf]
      simp [missingChoice])
  rw [hmap, hfil]

/-- Claim C5, witness: both schema features supplied canonically; the
vector is the supplied values in order and the report is empty. -/
theorem C5_all_canonical_witness :
    resolve internal_to_readables
      (Payload.ofList [("op_setting1", PyVal.num 5), ("s1", PyVal.num 7)])
      ["op_setting1", "s1"] =
      .ok ((["op_setting1", "s1"] : List String).map
        (fun f => if f = "op_setting1" then (5 : ℚ) else 7), []) :=
  C5_all_canonical internal_to_readables
    (Payload.ofList [("op_setting1", PyVal.num 5), ("s1", PyVal.num 7)])
    ["op_setting1", "s1"]
    (fun f => if f = "op_setting1" then (5 : ℚ) else 7)
    (by decide)

/-! ### Claim C6 -/

/-- Claim C6: two payloads that agree on every key that is a canonical
schema identifier or a registered alias produce identical resolution
results; keys matching neither are ignored. -/
theorem C6_unknown_keys_ignored (p q : Payload) (feats : List String)
    (h : ∀ k : String,
      (k ∈ feats ∨ k ∈ readable_to_internal.map Prod.fst) → p k = q k) :
    resolve internal_to_readables p feats =
      resolve internal_to_readables q feats := by
  apply resolve_congr
  intro f hf
  apply chooseRaw_congr
  · exact h f (Or.inl hf)
  · intro a ha
    refine h a (Or.inr ?_)
    unfold internal_to_readables at ha
    rcases List.mem_map.mp ha with ⟨kv, hkv, rfl⟩
    exact List.mem_map.mpr ⟨kv, (List.mem_filter.mp hkv).1, rfl⟩

/-- Claim C6, witness: adding the unknown key bogus_key to a payload does
not change the resolution result. -/
theorem C6_unknown_keys_ignored_witness :
    resolve internal_to_readables
      (Payload.ofList [("op_setting1", PyVal.num 1)])
      ["op_setting1", "s1"] =
    resolve internal_to_readables
      (Payload.ofList
        [("op_setting1", PyVal.num 1), ("bogus_key", PyVal.obj "x")])
      ["op_setting1", "s1"] := by
  apply C6_unknown_keys_ignored
  intro k hk
  have hne : k ≠ "bogus_key" := by
    rintro rfl
    rcases hk with hk | hk <;> revert hk <;> decide
  by_cases h1 : k = "op_setting1"
  · subst h1
    decide
  · have h1a : ("op_setting1" : String) ≠ k := fun hc => h1 hc.symm
    have h2a : ("bogus_key" : String) ≠ k := fun hc => hne hc.symm
    simp [Payload.ofList, List.find?, h1a, h2a]

/-! ### Claim C7 -/

/-- Claim C7: with schema op_setting1, s1, the registered alias
Altitude_factor mapping to op_setting1, and payload binding
Altitude_factor to 3.0 on a Ready service, the Resolved Vector is
[3.0, 0.0] and the Resolution Report is [s1]. -/
theorem C7_concrete_example :
    ("Altitude_factor", "op_setting1") ∈ readable_to_internal ∧
    health_ok ⟨true, true, ["op_setting1", "s1"]⟩ = true ∧
    resolve internal_to_readables
      (Payload.ofList [("Altitude_factor", PyVal.num 3)])
      ["op_setting1", "s1"] = .ok ([3, 0], ["s1"]) := by
  exact ⟨by decide, by decide, by decide⟩

/-! ### Claim C8 -/

/-- Claim C8: while the service is Unready (model, scaler or schema not
loaded), every /predict request fails with the not-ready server error, for
any payload and any collaborators, before resolution or inference. -/
theorem C8_unready_rejects (st : ServiceState)
    (h : st.modelLoaded = false ∨ st.scalerLoaded = false ∨
      st.internal_features = [])
    (scalerTransform : List ℚ → Option (List ℚ))
    (modelPredict : List ℚ → Option ℚ) (p : Payload) :
    predict st scalerTransform modelPredict p = .error .notReady :=
  predict_of_unready st h scalerTransform modelPredict p

/-- Claim C8, witness: a service missing its model rejects a request with
the not-ready error. -/
theorem C8_unready_rejects_witness :
    predict ⟨false, true, ["s1"]⟩ (fun r => some r) (fun _ => some 0)
      (Payload.ofList [("s1", PyVal.num 1)]) = .error .notReady :=
  C8_unready_rejects ⟨false, true, ["s1"]⟩ (Or.inl rfl)
    (fun r => some r) (fun _ => some 0)
    (Payload.ofList [("s1", PyVal.num 1)])

/-! ### Claim C9 -/

/-- Claim C9, counterexample: the claim says a missing or empty feature
schema is startup-fatal.  On the code, with no artifact file present,
startup completes normally (the FileNotFoundError is caught at app.py
lines 58-62) and leaves an Unready state whose /predict requests fail with
the per-request not-ready server error. -/
theorem C9_counterexample :
    startup ⟨fun _ => false, true, []⟩ = .ok ⟨false, false, []⟩ ∧
    predict ⟨false, false, []⟩ (fun r => some r) (fun _ => some 0)
      (Payload.ofList []) = .error .notReady := by
  exact ⟨rfl, by decide⟩

/-- Claim C9 (amended): if the artifacts cannot be found, loading fails, or
the feature schema is empty, startup does not abort: it completes in an
Unready state, and every /predict request then fails with the per-request
not-ready server error until the process is restarted. -/
theorem C9_schema_unavailable_unready (env : LoadEnv)
    (h : find_artifact_paths env.pathExists = none ∨ env.loadOk = false ∨
      (env.featureLines.map String.trim).filter (fun s => s ≠ "") = []) :
    startup env = .ok (startupState env) ∧
    ((startupState env).modelLoaded = false ∨
      (startupState env).scalerLoaded = false ∨
      (startupState env).internal_features = []) ∧
    ∀ (scalerTransform : List ℚ → Option (List ℚ))
      (modelPredict : List ℚ → Option ℚ) (p : Payload),
      predict (startupState env) scalerTransform modelPredict p =
        .error .notReady := by
  have hun : (startupState env).modelLoaded = false ∨
      (startupState env).scalerLoaded = false ∨
      (startupState env).internal_features = [] := by
    unfold startupState
    rcases h with h | h | h
    · rw [h]
      exact Or.inl rfl
    · cases hf : find_artifact_paths env.pathExists with
      | none => exact Or.inl rfl
      | some t => simp [h]
    · cases hf : find_artifact_paths env.pathExists with
      | none => exact Or.inl rfl
      | some t =>
        cases hl : env.loadOk with
        | false => simp
        | true => exact Or.inr (Or.inr h)
  exact ⟨rfl, hun, fun sT mP p => predict_of_unready _ hun sT mP p⟩

/-- Claim C9, witness: with no artifact present, startup completes and the
resulting service rejects a request with the not-ready error. -/
theorem C9_schema_unavailable_unready_witness :
    startup ⟨fun _ => false, true, ["op_setting1"]⟩ =
      .ok (startupState ⟨fun _ => false, true, ["op_setting1"]⟩) ∧
    predict (startupState ⟨fun _ => false, true, ["op_setting1"]⟩)
      (fun r => some r) (fun _ => some 0) (Payload.ofList []) =
      .error .notReady := by
  obtain ⟨h1, h2, h3⟩ := C9_schema_unavailable_unready
    ⟨fun _ => false, true, ["op_setting1"]⟩ (Or.inl (by decide))
  exact ⟨h1, h3 (fun r => some r) (fun _ => some 0) (Payload.ofList [])⟩

/-! ### Claim C10 -/

/-- Claim C10: a string value that Python float() parses (here recorded in
the numStr constructor) is accepted: when no feature selects a
non-coercible value, resolution succeeds and the slot of a feature bound
canonically to such a string holds the parsed number. -/
theorem C10_numeric_strings_accepted (i2r : String → List String)
    (p : Payload) (feats : List String) (i : ℕ) (f s : String) (x : ℚ)
    (hf : feats.get? i = some f)
    (hp : p f = some (.numStr s x))
    (hgood : ∀ g ∈ feats, badChoice (chooseRaw i2r p g) = false) :
    ∃ row miss, resolve i2r p feats = .ok (row, miss) ∧
      row.length = feats.length ∧ row.get? i = some x := by
  refine ⟨feats.map (slotVal i2r p),
    feats.filter (fun g => missingChoice (chooseRaw i2r p g)),
    resolve_ok_of_allGood i2r p feats hgood,
    List.length_map feats (slotVal i2r p), ?_⟩
  have hcr : chooseRaw i2r p f = some (.numStr s x) := by
    rw [chooseRaw_canonical i2r p f (by simp [hp]), hp]
  rw [List.get?_map, hf]
  simp [slotVal_of_val i2r p f hcr rfl]

/-- Claim C10, witness: the string value 42 for op_setting1 resolves to
the parsed number 42 rather than being rejected. -/
theorem C10_numeric_strings_accepted_witness :
    ∃ row miss,
      resolve internal_to_readables
        (Payload.ofList [("op_setting1", PyVal.numStr "42" 42)])
        ["op_setting1"] = .ok (row, miss) ∧
      row.length = (["op_setting1"] : List String).length ∧
      row.get? 0 = some 42 :=
  C10_numeric_strings_accepted internal_to_readables
    (Payload.ofList [("op_setting1", PyVal.numStr "42" 42)])
    ["op_setting1"] 0 "op_setting1" "42" 42
    (by decide) (by decide) (by decide)
